import Mathlib

/-!
Shallow embedding of the frame-processing pipeline in
`src/Object_Detection/video_detection_gui.py` (class `DetectionThread`).

Frames are identified by natural numbers. Wall-clock times and the
confidence threshold are rationals. The external YOLO detector is an
opaque collaborator, modelled as a function from a frame and a
confidence threshold to an optional detection output: `none` models the
detector raising an exception (the Python code has no try/except around
the detection block, so an exception propagates out of `run`).

One iteration of the `while self.active` loop body in
`DetectionThread.run` is modelled by `run_iter`; the three `time.time()`
calls in the body (line 49 `start_time`, line 61 inside
`processing_time`, line 72 `current_time`) are passed in as the
parameters `tS`, `tD`, `tN`.
-/

namespace VideoDetection

/-- Output of a successful detector invocation: the annotated frame,
the object count and the list of distinct object labels
(`results.render()[0]`, `len(detections)`, `detections['name'].unique().tolist()`). -/
structure DetOut where
  annotated : Nat
  count : Nat
  objects : List String
deriving Repr, DecidableEq

/-- The external detector: frame and confidence threshold in, optional
detection output out; `none` models a raised exception. -/
def Detector : Type := Nat → Rat → Option DetOut

/-- The mutable state of `DetectionThread` (fields set in `__init__`,
lines 23-34 of `video_detection_gui.py`). -/
structure DetectionThread where
  frame_queue : List Nat
  active : Bool
  detection_enabled : Bool
  confidence_threshold : Rat
  frame_skip : Int
  frame_counter : Nat
  fps_counter : Nat
  last_fps_time : Rat
  detection_count : Nat
deriving Repr, DecidableEq

/-- `DetectionThread.__init__`: `t0` is the value of `time.time()`
stored into `last_fps_time` at construction. -/
def DetectionThread.init (t0 : Rat) : DetectionThread :=
  { frame_queue := []
    active := true
    detection_enabled := true
    confidence_threshold := 1/2
    frame_skip := 2
    frame_counter := 0
    fps_counter := 0
    last_fps_time := t0
    detection_count := 0 }

/-- `DetectionThread.add_frame` (lines 82-87): under the queue lock,
if `len(self.frame_queue) > 3` pop the head, then append the new frame. -/
def DetectionThread.add_frame (s : DetectionThread) (frame : Nat) : DetectionThread :=
  let q := if s.frame_queue.length > 3 then s.frame_queue.tail else s.frame_queue
  { s with frame_queue := q ++ [frame] }

/-- `DetectionThread.set_detection_enabled` (lines 89-90). -/
def DetectionThread.set_detection_enabled (s : DetectionThread) (enabled : Bool) :
    DetectionThread :=
  { s with detection_enabled := enabled }

/-- `DetectionThread.set_confidence_threshold` (lines 92-93): a plain
assignment, no clamping. -/
def DetectionThread.set_confidence_threshold (s : DetectionThread) (threshold : Rat) :
    DetectionThread :=
  { s with confidence_threshold := threshold }

/-- `DetectionThread.set_frame_skip` (lines 95-96): `max(1, skip)`. -/
def DetectionThread.set_frame_skip (s : DetectionThread) (skip : Int) : DetectionThread :=
  { s with frame_skip := max 1 skip }

/-- `DetectionThread.stop` (lines 98-100), minus the thread join. -/
def DetectionThread.stop (s : DetectionThread) : DetectionThread :=
  { s with active := false }

/-- Signals emitted by the worker during one loop iteration:
`detection_done.emit(annotated_frame, detection_info)` and
`performance_update.emit(fps, self.detection_count)`. -/
inductive Event where
  | detection_done (annotated : Nat) (count : Nat) (objects : List String)
      (processing_time : Rat)
  | performance_update (fps : Rat) (detections : Nat)
deriving Repr, DecidableEq

/-- Result of one iteration of the worker loop body: the new state, the
frame passed to the detector (if the detector was invoked), the emitted
signals in emission order, and whether an uncaught detector exception
terminated the loop. -/
structure IterOut where
  state : DetectionThread
  invoked : Option Nat
  emitted : List Event
  crashed : Bool
deriving Repr, DecidableEq

/-- The part of the loop body after a frame has been popped off the
queue (lines 44-78): `s` is the state with the frame already removed,
`f` the popped frame. -/
def DetectionThread.drain_step (d : Detector) (tS tD tN : Rat) (s : DetectionThread)
    (f : Nat) : IterOut :=
  if s.detection_enabled then
    -- `self.frame_counter += 1` happens first; the new counter value
    -- `s.frame_counter + 1` is tested and stored in every enabled branch
    if ((s.frame_counter + 1 : Nat) : Int) % s.frame_skip = 0 then
      match d f s.confidence_threshold with
      | none => ⟨{ s with frame_counter := s.frame_counter + 1 }, some f, [], true⟩
      | some r =>
        -- after the detection_done emit: fps_counter += 1,
        -- detection_count += count, then the 1-second FPS check
        if 1 ≤ tN - s.last_fps_time then
          ⟨{ s with frame_counter := s.frame_counter + 1
                    fps_counter := 0
                    last_fps_time := tN
                    detection_count := 0 },
            some f,
            [Event.detection_done r.annotated r.count r.objects (tD - tS),
              Event.performance_update
                (((s.fps_counter + 1 : Nat) : Rat) / (tN - s.last_fps_time))
                (s.detection_count + r.count)],
            false⟩
        else
          ⟨{ s with frame_counter := s.frame_counter + 1
                    fps_counter := s.fps_counter + 1
                    detection_count := s.detection_count + r.count },
            some f,
            [Event.detection_done r.annotated r.count r.objects (tD - tS)],
            false⟩
    else ⟨{ s with frame_counter := s.frame_counter + 1 }, none, [], false⟩
  else ⟨s, none, [], false⟩

/-- One iteration of the `while self.active` loop body in
`DetectionThread.run` (lines 37-80): pop the oldest frame (if any)
under the lock, then run the detection block. -/
def DetectionThread.run_iter (d : Detector) (tS tD tN : Rat) (s : DetectionThread) :
    IterOut :=
  match s.frame_queue with
  | [] => ⟨s, none, [], false⟩
  | f :: rest => DetectionThread.drain_step d tS tD tN { s with frame_queue := rest } f

/-- A sequence of `add_frame` calls. -/
def submitAll (s : DetectionThread) (fs : List Nat) : DetectionThread :=
  fs.foldl DetectionThread.add_frame s

/-- The operations that touch the worker state: producer submissions,
control-surface mutations, and worker-loop iterations. -/
inductive Op where
  | add (frame : Nat)
  | setEnabled (b : Bool)
  | setConf (v : Rat)
  | setSkip (k : Int)
  | runIter (tS tD tN : Rat)
deriving Repr, DecidableEq

/-- Effect of a single operation on the worker state. -/
def applyOp (d : Detector) (s : DetectionThread) : Op → IterOut
  | .add f => ⟨s.add_frame f, none, [], false⟩
  | .setEnabled b => ⟨s.set_detection_enabled b, none, [], false⟩
  | .setConf v => ⟨s.set_confidence_threshold v, none, [], false⟩
  | .setSkip k => ⟨s.set_frame_skip k, none, [], false⟩
  | .runIter tS tD tN => s.run_iter d tS tD tN

/-- An execution trace: final state, the frames passed to the detector
in order, the emitted signals in order, and whether an uncaught
detector exception terminated the worker (no later operation is
processed after a crash). -/
structure TraceOut where
  state : DetectionThread
  invocations : List Nat
  emitted : List Event
  crashed : Bool
deriving Repr, DecidableEq

/-- Run a sequence of operations; a crash terminates the trace. -/
def runOps (d : Detector) (s : DetectionThread) : List Op → TraceOut
  | [] => ⟨s, [], [], false⟩
  | op :: ops =>
    let o := applyOp d s op
    if o.crashed then ⟨o.state, o.invoked.toList, o.emitted, true⟩
    else
      let r := runOps d o.state ops
      ⟨r.state, o.invoked.toList ++ r.invocations, o.emitted ++ r.emitted, r.crashed⟩

/-- A detector that always succeeds, reporting one object per frame. -/
def detOk : Detector := fun f _ => some ⟨f, 1, ["person"]⟩

/-- A detector that raises on frame 1 and succeeds elsewhere. -/
def detFailOn1 : Detector := fun f _ =>
  if f = 1 then none else some ⟨f, 1, ["person"]⟩

/-! ### Queue lemmas -/

theorem add_frame_queue (s : DetectionThread) (f : Nat) :
    (s.add_frame f).frame_queue =
      (if s.frame_queue.length > 3 then s.frame_queue.tail else s.frame_queue) ++ [f] := rfl

theorem add_frame_length_le (s : DetectionThread) (f : Nat)
    (h : s.frame_queue.length ≤ 4) : (s.add_frame f).frame_queue.length ≤ 4 := by
  rw [add_frame_queue]
  split
  · simp only [List.length_append, List.length_tail, List.length_cons, List.length_nil]
    omega
  · simp only [List.length_append, List.length_cons, List.length_nil]
    omega

theorem submitAll_length_le (fs : List Nat) : ∀ s : DetectionThread,
    s.frame_queue.length ≤ 4 → (submitAll s fs).frame_queue.length ≤ 4 := by
  induction fs with
  | nil => exact fun s h => h
  | cons f fs ih =>
    intro s h
    exact ih (s.add_frame f) (add_frame_length_le s f h)

theorem submitAll_append_one (s : DetectionThread) (fs : List Nat) (f : Nat) :
    submitAll s (fs ++ [f]) = (submitAll s fs).add_frame f := by
  simp [submitAll, List.foldl_append]

/-- Claim C1 (amended): starting from the empty queue, after any sequence
of `add_frame` calls the queue length is at most 4 (not 3: `add_frame`
evicts only when the length is strictly greater than 3, so the queue
grows to 4 entries). -/
theorem C1_submit_length_le_four (t0 : Rat) (fs : List Nat) :
    (submitAll (DetectionThread.init t0) fs).frame_queue.length ≤ 4 :=
  submitAll_length_le fs (DetectionThread.init t0) (by simp [DetectionThread.init])

/-- Claim C1 counterexample: after four submissions to a fresh thread the
queue holds 4 frames, exceeding the claimed bound of 3. -/
theorem C1_counterexample :
    ¬ (submitAll (DetectionThread.init 0) [1, 2, 3, 4]).frame_queue.length ≤ 3 := by
  decide

/-- Claim C2 counterexample: submitting onto a queue already holding 3
frames does not evict the oldest — the queue becomes `[1, 2, 3, 4]`,
so the retained frames are not the most-recently-submitted 3. -/
theorem C2_counterexample :
    (submitAll (DetectionThread.init 0) [1, 2, 3]).frame_queue.length = 3 ∧
      ((submitAll (DetectionThread.init 0) [1, 2, 3]).add_frame 4).frame_queue
        = [1, 2, 3, 4] := by
  decide

/-- Claim C2 (amended): eviction of the oldest frame happens only when a
submit occurs while the queue already holds 4 frames (length strictly
greater than 3); for every sequence of submissions starting from the
empty queue, the retained frames are exactly the most-recently-submitted
`min 4 n` frames in submission order. -/
theorem C2_retains_last_four (t0 : Rat) (fs : List Nat) :
    (submitAll (DetectionThread.init t0) fs).frame_queue
      = fs.drop (fs.length - 4) := by
  induction fs using List.reverseRecOn with
  | nil => rfl
  | append_singleton fs f ih =>
    rw [submitAll_append_one, add_frame_queue, ih]
    by_cases h4 : fs.length ≤ 3
    · rw [if_neg]
      · have h0 : fs.length - 4 = 0 := by omega
        have h1 : (fs ++ [f]).length - 4 = 0 := by
          simp only [List.length_append, List.length_cons, List.length_nil]
          omega
        rw [h0, h1, List.drop_zero, List.drop_zero]
      · rw [List.length_drop]
        omega
    · rw [if_pos]
      · rw [List.tail_drop, List.drop_append_eq_append_drop]
        have h1 : (fs ++ [f]).length - 4 = fs.length - 3 := by
          simp only [List.length_append, List.length_cons, List.length_nil]
          omega
        have h2 : fs.length - 4 + 1 = fs.length - 3 := by omega
        have h3 : fs.length - 3 - fs.length = 0 := by omega
        rw [h1, h2, h3, List.drop_zero]
      · rw [List.length_drop]
        omega

/-- Claim C8 counterexample: `set_confidence_threshold 2` stores 2, not
`min 1 (max 0 2) = 1` — the mutator performs no clamping. -/
theorem C8_counterexample :
    ¬ ((DetectionThread.init 0).set_confidence_threshold 2).confidence_threshold
        = min 1 (max 0 (2 : Rat)) := by
  decide

/-- Claim C8 (amended): the set-confidence-threshold mutator stores the
given value unmodified (no clamping to [0, 1]). -/
theorem C8_store_unclamped (s : DetectionThread) (v : Rat) :
    (s.set_confidence_threshold v).confidence_threshold = v := rfl

/-! ### Worker-loop lemmas -/

theorem run_iter_nil (d : Detector) (tS tD tN : Rat) (s : DetectionThread)
    (hq : s.frame_queue = []) :
    s.run_iter d tS tD tN = ⟨s, none, [], false⟩ := by
  unfold DetectionThread.run_iter
  rw [hq]

theorem run_iter_cons (d : Detector) (tS tD tN : Rat) (s : DetectionThread)
    (f : Nat) (rest : List Nat) (hq : s.frame_queue = f :: rest) :
    s.run_iter d tS tD tN
      = DetectionThread.drain_step d tS tD tN { s with frame_queue := rest } f := by
  unfold DetectionThread.run_iter
  rw [hq]

theorem drain_step_queue (d : Detector) (tS tD tN : Rat) (s : DetectionThread) (f : Nat) :
    (DetectionThread.drain_step d tS tD tN s f).state.frame_queue = s.frame_queue := by
  unfold DetectionThread.drain_step
  repeat' split
  all_goals rfl

theorem drain_step_enabled (d : Detector) (tS tD tN : Rat) (s : DetectionThread) (f : Nat) :
    (DetectionThread.drain_step d tS tD tN s f).state.detection_enabled
      = s.detection_enabled := by
  unfold DetectionThread.drain_step
  repeat' split
  all_goals rfl

theorem drain_step_skip_eq (d : Detector) (tS tD tN : Rat) (s : DetectionThread) (f : Nat) :
    (DetectionThread.drain_step d tS tD tN s f).state.frame_skip = s.frame_skip := by
  unfold DetectionThread.drain_step
  repeat' split
  all_goals rfl

theorem drain_step_disabled (d : Detector) (tS tD tN : Rat) (s : DetectionThread) (f : Nat)
    (h : s.detection_enabled = false) :
    DetectionThread.drain_step d tS tD tN s f = ⟨s, none, [], false⟩ := by
  unfold DetectionThread.drain_step
  rw [if_neg (by simp [h])]

theorem drain_step_counter (d : Detector) (tS tD tN : Rat) (s : DetectionThread) (f : Nat)
    (he : s.detection_enabled = true) :
    (DetectionThread.drain_step d tS tD tN s f).state.frame_counter
      = s.frame_counter + 1 := by
  unfold DetectionThread.drain_step
  rw [if_pos he]
  repeat' split
  all_goals rfl

theorem drain_step_skip_branch (d : Detector) (tS tD tN : Rat) (s : DetectionThread)
    (f : Nat) (he : s.detection_enabled = true)
    (hm : ¬ ((s.frame_counter + 1 : Nat) : Int) % s.frame_skip = 0) :
    DetectionThread.drain_step d tS tD tN s f
      = ⟨{ s with frame_counter := s.frame_counter + 1 }, none, [], false⟩ := by
  unfold DetectionThread.drain_step
  rw [if_pos he, if_neg hm]

theorem drain_step_invoked_of_mod (d : Detector) (tS tD tN : Rat) (s : DetectionThread)
    (f : Nat) (he : s.detection_enabled = true)
    (hm : ((s.frame_counter + 1 : Nat) : Int) % s.frame_skip = 0) :
    (DetectionThread.drain_step d tS tD tN s f).invoked = some f := by
  unfold DetectionThread.drain_step
  rw [if_pos he, if_pos hm]
  cases hdet : d f s.confidence_threshold with
  | none => rfl
  | some r =>
    repeat' split
    all_goals rfl

theorem drain_step_crash (d : Detector) (tS tD tN : Rat) (s : DetectionThread)
    (f : Nat) (he : s.detection_enabled = true)
    (hm : ((s.frame_counter + 1 : Nat) : Int) % s.frame_skip = 0)
    (hd : d f s.confidence_threshold = none) :
    DetectionThread.drain_step d tS tD tN s f
      = ⟨{ s with frame_counter := s.frame_counter + 1 }, some f, [], true⟩ := by
  unfold DetectionThread.drain_step
  rw [if_pos he, if_pos hm, hd]

/-- Claim C3: with `frameSkip = N ≥ 1` and detection enabled, draining a
frame increments the drain counter by one; the detector is invoked on
exactly the drained frames whose (incremented) drain counter is a
multiple of `N`, and every other drained frame is discarded with no
detector invocation, no emission, and the frame removed from the queue. -/
theorem C3_skip_policy (d : Detector) (tS tD tN : Rat) (s : DetectionThread)
    (f : Nat) (rest : List Nat) (N : Int)
    (hq : s.frame_queue = f :: rest) (he : s.detection_enabled = true)
    (hN : s.frame_skip = N) (hN1 : 1 ≤ N) :
    (s.run_iter d tS tD tN).state.frame_counter = s.frame_counter + 1 ∧
    (((s.frame_counter + 1 : Nat) : Int) % N = 0 →
      (s.run_iter d tS tD tN).invoked = some f) ∧
    (¬ ((s.frame_counter + 1 : Nat) : Int) % N = 0 →
      (s.run_iter d tS tD tN).invoked = none ∧
      (s.run_iter d tS tD tN).emitted = [] ∧
      (s.run_iter d tS tD tN).state.frame_queue = rest) := by
  subst hN
  rw [run_iter_cons d tS tD tN s f rest hq]
  refine ⟨drain_step_counter d tS tD tN { s with frame_queue := rest } f he,
    fun hm => ?_, fun hm => ?_⟩
  · exact drain_step_invoked_of_mod d tS tD tN { s with frame_queue := rest } f he hm
  · rw [drain_step_skip_branch d tS tD tN { s with frame_queue := rest } f he hm]
    exact ⟨rfl, rfl, rfl⟩

/-- Claim C3 witness state: queue `[5, 8]`, detection enabled,
`frame_skip = 2`, `frame_counter = 0`. -/
def s3w : DetectionThread :=
  ⟨[5, 8], true, true, 1/2, 2, 0, 0, 0, 0⟩

/-- Claim C3 witness: on `s3w` the first drained frame (counter 1, not a
multiple of 2) is discarded without invoking the detector. -/
theorem C3_skip_policy_witness :
    (s3w.run_iter detOk 0 0 0).state.frame_counter = s3w.frame_counter + 1 ∧
    (((s3w.frame_counter + 1 : Nat) : Int) % 2 = 0 →
      (s3w.run_iter detOk 0 0 0).invoked = some 5) ∧
    (¬ ((s3w.frame_counter + 1 : Nat) : Int) % 2 = 0 →
      (s3w.run_iter detOk 0 0 0).invoked = none ∧
      (s3w.run_iter detOk 0 0 0).emitted = [] ∧
      (s3w.run_iter detOk 0 0 0).state.frame_queue = [8]) :=
  C3_skip_policy detOk 0 0 0 s3w 5 [8] 2 rfl rfl rfl (by decide)

/-- Claim C9 counterexample: with detection disabled and `[7]` queued,
one loop iteration removes the frame from the queue anyway — the pop at
lines 40-42 happens before the `detection_enabled` check at line 44, so
a queued frame does not remain in the queue while detection is off. -/
theorem C9_counterexample :
    (((DetectionThread.init 0).add_frame 7).set_detection_enabled
        false).detection_enabled = false ∧
    (((DetectionThread.init 0).add_frame 7).set_detection_enabled
        false).frame_queue = [7] ∧
    ((((DetectionThread.init 0).add_frame 7).set_detection_enabled
        false).run_iter detOk 0 0 0).state.frame_queue = [] := by
  refine ⟨rfl, rfl, ?_⟩
  rw [run_iter_cons detOk 0 0 0 _ 7 [] rfl, drain_step_queue]

/-- Claim C9 (amended): in every iteration of the worker loop a frame is
removed from the queue whenever one is available, regardless of
`detectionEnabled`; when detection is disabled the drained frame is
discarded without any detector invocation or emission. -/
theorem C9_drain_regardless (d : Detector) (tS tD tN : Rat) (s : DetectionThread)
    (f : Nat) (rest : List Nat) (hq : s.frame_queue = f :: rest) :
    (s.run_iter d tS tD tN).state.frame_queue = rest ∧
    (s.detection_enabled = false →
      (s.run_iter d tS tD tN).invoked = none ∧
      (s.run_iter d tS tD tN).emitted = []) := by
  rw [run_iter_cons d tS tD tN s f rest hq]
  refine ⟨drain_step_queue d tS tD tN { s with frame_queue := rest } f, fun h => ?_⟩
  rw [drain_step_disabled d tS tD tN { s with frame_queue := rest } f h]
  exact ⟨rfl, rfl⟩

/-- Claim C9 witness: concrete disabled state with one queued frame. -/
theorem C9_drain_regardless_witness :
    (((((DetectionThread.init 0).add_frame 7).set_detection_enabled
        false).run_iter detOk 0 0 0).state.frame_queue = ([] : List Nat)) ∧
    ((((DetectionThread.init 0).add_frame 7).set_detection_enabled
        false).detection_enabled = false →
      ((((DetectionThread.init 0).add_frame 7).set_detection_enabled
          false).run_iter detOk 0 0 0).invoked = none ∧
      ((((DetectionThread.init 0).add_frame 7).set_detection_enabled
          false).run_iter detOk 0 0 0).emitted = []) :=
  C9_drain_regardless detOk 0 0 0
    (((DetectionThread.init 0).add_frame 7).set_detection_enabled false) 7 [] rfl

/-! ### Trace lemmas -/

theorem run_iter_skip_eq (d : Detector) (tS tD tN : Rat) (s : DetectionThread) :
    (s.run_iter d tS tD tN).state.frame_skip = s.frame_skip := by
  cases hq : s.frame_queue with
  | nil => rw [run_iter_nil d tS tD tN s hq]
  | cons f rest =>
    rw [run_iter_cons d tS tD tN s f rest hq,
      drain_step_skip_eq d tS tD tN { s with frame_queue := rest } f]

theorem run_iter_enabled_eq (d : Detector) (tS tD tN : Rat) (s : DetectionThread) :
    (s.run_iter d tS tD tN).state.detection_enabled = s.detection_enabled := by
  cases hq : s.frame_queue with
  | nil => rw [run_iter_nil d tS tD tN s hq]
  | cons f rest =>
    rw [run_iter_cons d tS tD tN s f rest hq,
      drain_step_enabled d tS tD tN { s with frame_queue := rest } f]

theorem run_iter_disabled (d : Detector) (tS tD tN : Rat) (s : DetectionThread)
    (h : s.detection_enabled = false) :
    (s.run_iter d tS tD tN).invoked = none ∧ (s.run_iter d tS tD tN).crashed = false := by
  cases hq : s.frame_queue with
  | nil => rw [run_iter_nil d tS tD tN s hq]; exact ⟨rfl, rfl⟩
  | cons f rest =>
    rw [run_iter_cons d tS tD tN s f rest hq,
      drain_step_disabled d tS tD tN { s with frame_queue := rest } f h]
    exact ⟨rfl, rfl⟩

theorem applyOp_skip_ge (d : Detector) (s : DetectionThread) (op : Op)
    (h : 1 ≤ s.frame_skip) : 1 ≤ (applyOp d s op).state.frame_skip := by
  cases op with
  | add f => exact h
  | setEnabled b => exact h
  | setConf v => exact h
  | setSkip k => exact le_max_left 1 k
  | runIter tS tD tN => exact (run_iter_skip_eq d tS tD tN s).symm ▸ h

theorem runOps_skip_ge (d : Detector) (ops : List Op) : ∀ s : DetectionThread,
    1 ≤ s.frame_skip → 1 ≤ (runOps d s ops).state.frame_skip := by
  induction ops with
  | nil => exact fun s h => h
  | cons op ops ih =>
    intro s h
    simp only [runOps]
    split
    · exact applyOp_skip_ge d s op h
    · exact ih (applyOp d s op).state (applyOp_skip_ge d s op h)

/-- Claim C10: `frame_skip` is initialized to 2 and `set_frame_skip`
stores `max 1 v`, so along every operation sequence from a fresh thread
`frame_skip ≥ 1` holds; in particular the divisor of the modulo in the
worker loop is never zero. -/
theorem C10_frame_skip_pos (t0 : Rat) (d : Detector) (ops : List Op) :
    1 ≤ (runOps d (DetectionThread.init t0) ops).state.frame_skip ∧
    (runOps d (DetectionThread.init t0) ops).state.frame_skip ≠ 0 := by
  have h := runOps_skip_ge d ops (DetectionThread.init t0) (by norm_num [DetectionThread.init])
  exact ⟨h, by omega⟩

theorem applyOp_disabled (d : Detector) (s : DetectionThread) (op : Op)
    (h : s.detection_enabled = false) (hop : op ≠ Op.setEnabled true) :
    (applyOp d s op).state.detection_enabled = false ∧
    (applyOp d s op).invoked = none ∧ (applyOp d s op).crashed = false := by
  cases op with
  | add f => exact ⟨h, rfl, rfl⟩
  | setEnabled b =>
    cases b with
    | false => exact ⟨rfl, rfl, rfl⟩
    | true => exact absurd rfl hop
  | setConf v => exact ⟨h, rfl, rfl⟩
  | setSkip k => exact ⟨h, rfl, rfl⟩
  | runIter tS tD tN =>
    exact ⟨(run_iter_enabled_eq d tS tD tN s).trans h,
      (run_iter_disabled d tS tD tN s h).1, (run_iter_disabled d tS tD tN s h).2⟩

theorem runOps_disabled_no_invocations (d : Detector) (ops : List Op) :
    ∀ s : DetectionThread, s.detection_enabled = false →
    (∀ op ∈ ops, op ≠ Op.setEnabled true) → (runOps d s ops).invocations = [] := by
  induction ops with
  | nil => intro s _ _; rfl
  | cons op ops ih =>
    intro s h hops
    have h1 := applyOp_disabled d s op h (hops op (List.mem_cons_self op ops))
    simp only [runOps]
    rw [if_neg (by rw [h1.2.2]; exact Bool.false_ne_true)]
    show (applyOp d s op).invoked.toList ++ (runOps d (applyOp d s op).state ops).invocations
      = []
    rw [h1.2.1,
      ih (applyOp d s op).state h1.1 (fun o ho => hops o (List.mem_cons_of_mem op ho))]
    rfl

/-- Claim C7: while detectionEnabled is false, no detector invocation
occurs over any sequence of operations (submissions, mutations other
than re-enabling, worker iterations), regardless of queue contents. -/
theorem C7_disabled_no_invocations (d : Detector) (s : DetectionThread) (ops : List Op)
    (h : s.detection_enabled = false) (hops : ∀ op ∈ ops, op ≠ Op.setEnabled true) :
    (runOps d s ops).invocations = [] :=
  runOps_disabled_no_invocations d ops s h hops

/-- Claim C7 witness: a disabled thread, two submissions and two worker
iterations — no detector invocation. -/
theorem C7_disabled_no_invocations_witness :
    (runOps detOk ((DetectionThread.init 0).set_detection_enabled false)
      [Op.add 1, Op.add 2, Op.runIter 0 0 0, Op.runIter 0 0 0]).invocations = [] :=
  C7_disabled_no_invocations detOk ((DetectionThread.init 0).set_detection_enabled false)
    [Op.add 1, Op.add 2, Op.runIter 0 0 0, Op.runIter 0 0 0] rfl (by decide)

/-! ### The end-to-end scenario of claim C4 -/

/-- Submit F1..F5, then five worker iterations (the fifth finds the
queue empty). -/
def c4ops : List Op :=
  [Op.add 1, Op.add 2, Op.add 3, Op.add 4, Op.add 5,
    Op.runIter 0 0 0, Op.runIter 0 0 0, Op.runIter 0 0 0, Op.runIter 0 0 0,
    Op.runIter 0 0 0]

/-- Full evaluation of the claim C4 scenario trace. -/
theorem c4eval :
    runOps detOk (DetectionThread.init 0) c4ops
      = ⟨⟨[], true, true, 1/2, 2, 4, 2, 0, 2⟩, [3, 5],
          [Event.detection_done 3 1 ["person"] 0, Event.detection_done 5 1 ["person"] 0],
          false⟩ := by
  norm_num [c4ops, runOps, applyOp, DetectionThread.run_iter, DetectionThread.drain_step,
    DetectionThread.add_frame, DetectionThread.init, detOk]

/-- Claim C4 counterexample: after submitting F1..F5 the queue holds
`[2, 3, 4, 5]`, not `{F3, F4, F5}`; and draining produces detector
invocations on F3 and F5, not a single invocation on F4. -/
theorem C4_counterexample :
    (submitAll (DetectionThread.init 0) [1, 2, 3, 4, 5]).frame_queue ≠ [3, 4, 5] ∧
    (runOps detOk (DetectionThread.init 0) c4ops).invocations ≠ [4] := by
  refine ⟨by decide, ?_⟩
  rw [c4eval]
  decide

/-- Claim C4 (amended): with capacity behaving as 4 and the default
`frameSkip = 2`, submitting F1..F5 while the worker is idle leaves the
queue `[2, 3, 4, 5]`; draining it yields exactly two detector
invocations — on F3 (the 2nd drained frame) and F5 (the 4th) — emitting
two DetectionResults, while F2 and F4 are discarded by the skip policy
and the worker does not crash. -/
theorem C4_scenario :
    (submitAll (DetectionThread.init 0) [1, 2, 3, 4, 5]).frame_queue = [2, 3, 4, 5] ∧
    (runOps detOk (DetectionThread.init 0) c4ops).invocations = [3, 5] ∧
    (runOps detOk (DetectionThread.init 0) c4ops).emitted
      = [Event.detection_done 3 1 ["person"] 0, Event.detection_done 5 1 ["person"] 0] ∧
    (runOps detOk (DetectionThread.init 0) c4ops).crashed = false := by
  refine ⟨by decide, ?_, ?_, ?_⟩ <;> rw [c4eval]

/-! ### Uncaught detector failure (claim C5) -/

theorem drain_step_success_emit (d : Detector) (tS tD tN : Rat) (s : DetectionThread)
    (f : Nat) (r : DetOut) (he : s.detection_enabled = true)
    (hm : ((s.frame_counter + 1 : Nat) : Int) % s.frame_skip = 0)
    (hd : d f s.confidence_threshold = some r) (ht : 1 ≤ tN - s.last_fps_time) :
    DetectionThread.drain_step d tS tD tN s f
      = ⟨{ s with frame_counter := s.frame_counter + 1
                  fps_counter := 0
                  last_fps_time := tN
                  detection_count := 0 },
          some f,
          [Event.detection_done r.annotated r.count r.objects (tD - tS),
            Event.performance_update
              (((s.fps_counter + 1 : Nat) : Rat) / (tN - s.last_fps_time))
              (s.detection_count + r.count)],
          false⟩ := by
  unfold DetectionThread.drain_step
  rw [if_pos he, if_pos hm, hd]
  dsimp only
  rw [if_pos ht]

theorem drain_step_success_no_emit (d : Detector) (tS tD tN : Rat) (s : DetectionThread)
    (f : Nat) (r : DetOut) (he : s.detection_enabled = true)
    (hm : ((s.frame_counter + 1 : Nat) : Int) % s.frame_skip = 0)
    (hd : d f s.confidence_threshold = some r) (ht : ¬ 1 ≤ tN - s.last_fps_time) :
    DetectionThread.drain_step d tS tD tN s f
      = ⟨{ s with frame_counter := s.frame_counter + 1
                  fps_counter := s.fps_counter + 1
                  detection_count := s.detection_count + r.count },
          some f,
          [Event.detection_done r.annotated r.count r.objects (tD - tS)],
          false⟩ := by
  unfold DetectionThread.drain_step
  rw [if_pos he, if_pos hm, hd]
  dsimp only
  rw [if_neg ht]

/-- Claim C5 witness state: frames `[1, 2]` queued, detection enabled,
`frame_skip = 1`. -/
def c5s : DetectionThread :=
  ⟨[1, 2], true, true, 1/2, 1, 0, 0, 0, 0⟩

/-- Claim C5 counterexample: the detector raises on frame 1 — the worker
crashes (the exception is not caught), nothing is emitted, and frame 2
is never drained or processed, contradicting "the worker does not crash
or stop" and "the next drained frame is processed normally". -/
theorem C5_counterexample :
    (runOps detFailOn1 c5s [Op.runIter 0 0 0, Op.runIter 0 0 0]).crashed = true ∧
    (runOps detFailOn1 c5s [Op.runIter 0 0 0, Op.runIter 0 0 0]).invocations = [1] ∧
    (runOps detFailOn1 c5s [Op.runIter 0 0 0, Op.runIter 0 0 0]).emitted = [] := by
  have hev : runOps detFailOn1 c5s [Op.runIter 0 0 0, Op.runIter 0 0 0]
      = ⟨⟨[2], true, true, 1/2, 1, 1, 0, 0, 0⟩, [1], [], true⟩ := by
    norm_num [runOps, applyOp, DetectionThread.run_iter, DetectionThread.drain_step,
      c5s, detFailOn1]
  rw [hev]
  exact ⟨rfl, rfl, rfl⟩

/-- Claim C5 (amended): there is no per-frame error handling: when the
detector raises on the drained frame selected for processing, no
DetectionResult is emitted for it and the uncaught exception terminates
the worker loop — no subsequent operation is processed by the worker. -/
theorem C5_uncaught_crash (d : Detector) (tS tD tN : Rat) (s : DetectionThread)
    (f : Nat) (rest : List Nat) (ops : List Op)
    (hq : s.frame_queue = f :: rest) (he : s.detection_enabled = true)
    (hm : ((s.frame_counter + 1 : Nat) : Int) % s.frame_skip = 0)
    (hd : d f s.confidence_threshold = none) :
    (s.run_iter d tS tD tN).emitted = [] ∧
    (s.run_iter d tS tD tN).crashed = true ∧
    runOps d s (Op.runIter tS tD tN :: ops)
      = ⟨(s.run_iter d tS tD tN).state, [f], [], true⟩ := by
  have hr : s.run_iter d tS tD tN
      = ⟨{ s with frame_queue := rest, frame_counter := s.frame_counter + 1 },
          some f, [], true⟩ := by
    rw [run_iter_cons d tS tD tN s f rest hq,
      drain_step_crash d tS tD tN { s with frame_queue := rest } f he hm hd]
  refine ⟨by rw [hr], by rw [hr], ?_⟩
  simp only [runOps, applyOp]
  rw [hr]
  rfl

/-- Claim C5 witness: frame 1 drained from `c5s`, the detector raises,
the worker crashes, and a pending second iteration never runs. -/
theorem C5_uncaught_crash_witness :
    (c5s.run_iter detFailOn1 0 0 0).emitted = [] ∧
    (c5s.run_iter detFailOn1 0 0 0).crashed = true ∧
    runOps detFailOn1 c5s (Op.runIter 0 0 0 :: [Op.runIter 0 0 0])
      = ⟨(c5s.run_iter detFailOn1 0 0 0).state, [1], [], true⟩ :=
  C5_uncaught_crash detFailOn1 0 0 0 c5s 1 [2] [Op.runIter 0 0 0] rfl rfl (by decide) rfl

/-! ### Performance emission (claim C6) -/

/-- Claim C6: whenever a PerformanceSample is emitted by a worker
iteration, at least one second has elapsed since `last_fps_time` (which
the reset clause below shows is the time of the previous emission, so
emissions are at least one second apart); the emitted framesPerSecond
equals the processed-frame counter at emission time (the counter
incremented for this frame, counting frames processed since the last
reset) divided by the elapsed seconds; and immediately afterwards both
counters (`fps_counter`, `detection_count`) are zero and the emission
timestamp `last_fps_time` equals the current time. -/
theorem C6_perf_emission (d : Detector) (tS tD tN : Rat) (s : DetectionThread)
    (fps : Rat) (cnt : Nat)
    (h : Event.performance_update fps cnt ∈ (s.run_iter d tS tD tN).emitted) :
    1 ≤ tN - s.last_fps_time ∧
    fps = ((s.fps_counter + 1 : Nat) : Rat) / (tN - s.last_fps_time) ∧
    (s.run_iter d tS tD tN).state.fps_counter = 0 ∧
    (s.run_iter d tS tD tN).state.detection_count = 0 ∧
    (s.run_iter d tS tD tN).state.last_fps_time = tN := by
  cases hq : s.frame_queue with
  | nil =>
    rw [run_iter_nil d tS tD tN s hq] at h
    exact absurd h (List.not_mem_nil _)
  | cons f rest =>
    cases he : s.detection_enabled with
    | false =>
      have hrs := (run_iter_cons d tS tD tN s f rest hq).trans
        (drain_step_disabled d tS tD tN { s with frame_queue := rest } f he)
      rw [hrs] at h
      exact absurd h (List.not_mem_nil _)
    | true =>
      by_cases hm : ((s.frame_counter + 1 : Nat) : Int) % s.frame_skip = 0
      · cases hd : d f s.confidence_threshold with
        | none =>
          have hrs := (run_iter_cons d tS tD tN s f rest hq).trans
            (drain_step_crash d tS tD tN { s with frame_queue := rest } f he hm hd)
          rw [hrs] at h
          exact absurd h (List.not_mem_nil _)
        | some r =>
          by_cases ht : 1 ≤ tN - s.last_fps_time
          · have hrs := (run_iter_cons d tS tD tN s f rest hq).trans
              (drain_step_success_emit d tS tD tN { s with frame_queue := rest } f r
                he hm hd ht)
            rw [hrs] at h ⊢
            simp only [List.mem_cons, List.mem_singleton, List.not_mem_nil, or_false] at h
            rcases h with h | h
            · simp at h
            · injection h with h1 h2
              exact ⟨ht, h1, rfl, rfl, rfl⟩
          · have hrs := (run_iter_cons d tS tD tN s f rest hq).trans
              (drain_step_success_no_emit d tS tD tN { s with frame_queue := rest } f r
                he hm hd ht)
            rw [hrs] at h
            simp at h
      · have hrs := (run_iter_cons d tS tD tN s f rest hq).trans
          (drain_step_skip_branch d tS tD tN { s with frame_queue := rest } f he hm)
        rw [hrs] at h
        exact absurd h (List.not_mem_nil _)

/-- Claim C6 witness state: frame 5 queued, detection enabled,
`frame_skip = 1`, counters zero, `last_fps_time = 0`. -/
def c6s : DetectionThread :=
  ⟨[5], true, true, 1/2, 1, 0, 0, 0, 0⟩

/-- Claim C6 witness: at `tN = 2` the iteration on `c6s` emits a
PerformanceSample with framesPerSecond `1/2` and then resets both
counters and the timestamp. -/
theorem C6_perf_emission_witness :
    1 ≤ (2 : Rat) - c6s.last_fps_time ∧
    ((1 : Rat) / 2) = ((c6s.fps_counter + 1 : Nat) : Rat) / (2 - c6s.last_fps_time) ∧
    (c6s.run_iter detOk 0 0 2).state.fps_counter = 0 ∧
    (c6s.run_iter detOk 0 0 2).state.detection_count = 0 ∧
    (c6s.run_iter detOk 0 0 2).state.last_fps_time = 2 := by
  have hr : c6s.run_iter detOk 0 0 2
      = DetectionThread.drain_step detOk 0 0 2 { c6s with frame_queue := [] } 5 :=
    run_iter_cons detOk 0 0 2 c6s 5 [] rfl
  have hs := drain_step_success_emit detOk 0 0 2 { c6s with frame_queue := [] } 5
    ⟨5, 1, ["person"]⟩ rfl (by decide) rfl (by norm_num [c6s])
  exact C6_perf_emission detOk 0 0 2 c6s (1/2) 1 (by
    rw [hr, hs]
    exact List.mem_cons_of_mem _ (List.mem_singleton.mpr (by norm_num [c6s])))

end VideoDetection
